import Mathlib

/-!
Verification of the workout workflow engine of the gymmando backend.

The development shallowly embeds the Python sources:
  * `gymmando_graph/modules/workout/schemas/workout_graph_schemas.py` (WorkoutState),
  * `gymmando_graph/modules/workout/schemas/workout_parser_schemas.py` (WorkoutParserResponse),
  * `gymmando_graph/database/models.py` (WorkoutDBModel),
  * `gymmando_graph/modules/workout/nodes/workout_validator.py` (WorkoutValidator),
  * `gymmando_graph/modules/workout/crud.py` (WorkoutCRUD),
  * `gymmando_graph/modules/workout/workout_graph.py` (WorkoutGraph).

External collaborators (the LLM extractor, the LLM reader agent and the
Supabase responses behind the CRUD layer) are modelled by an `Env` record
giving their behaviour for one run; a `StoreCall` log records every call the
engine makes on the persistence layer.  Python truthiness on the optional
fields is modelled explicitly (`None`, `0` and `""` are falsy).
-/

namespace Gymmando

/-- Python truthiness of an `Optional[str]` value: `None` and `""` are falsy. -/
def strOptTruthy : Option String → Bool
  | none => false
  | some s => !(s == "")

/-- Python truthiness of an `Optional[int]` value: `None` and `0` are falsy. -/
def intOptTruthy : Option Int → Bool
  | none => false
  | some n => !(n == 0)

/-- Python `f"{x}"` rendering of an `Optional[str]` value. -/
def pyS : Option String → String
  | none => "None"
  | some s => s

/-- Python `f"{x}"` rendering of an `Optional[int]` value. -/
def pyI : Option Int → String
  | none => "None"
  | some n => toString n

/-- Model of `WorkoutState` (schemas/workout_graph_schemas.py): the state flowing
through the LangGraph nodes.  Field names and optionality follow the
pydantic model; `missing_fields` defaults to `[]` and `response` to `""`. -/
structure WorkoutState where
  user_input : String
  user_id : String
  intent : Option String := none
  exercise : Option String := none
  sets : Option Int := none
  reps : Option Int := none
  weight : Option String := none
  rest_time : Option Int := none
  comments : Option String := none
  workout_id : Option String := none
  validation_status : Option String := none
  missing_fields : List String := []
  response : String := ""
deriving DecidableEq, Repr

/-- Model of `WorkoutParserResponse` (schemas/workout_parser_schemas.py): the
structured output of the extractor agent; every field optional. -/
structure WorkoutParserResponse where
  exercise : Option String := none
  sets : Option Int := none
  reps : Option Int := none
  weight : Option String := none
  rest_time : Option Int := none
  comments : Option String := none
  workout_id : Option String := none
deriving DecidableEq, Repr

/-- Model of `WorkoutDBModel` (database/models.py): a persisted workout row.  The
UUID primary key is kept as its string form and `created_at` is elided
(the engine never reads it). -/
structure WorkoutDBModel where
  id : String
  user_id : String
  exercise : String
  sets : Int
  reps : Int
  weight : String
  rest_time : Option Int := none
  comments : Option String := none
deriving DecidableEq, Repr

/-- Python exceptions distinguished by the engine's `except` clauses. -/
inductive PyErr where
  /-- Model of `ValueError(msg)`; `str(e)` is `msg`. -/
  | valueError : String → PyErr
  /-- any other exception. -/
  | otherError : PyErr
deriving DecidableEq, Repr

/-- The partial-update payload built by `_workout_updator_node`
(`update_data`): one entry per state field that is not `None`. -/
structure UpdateData where
  exercise : Option String := none
  sets : Option Int := none
  reps : Option Int := none
  weight : Option String := none
  rest_time : Option Int := none
  comments : Option String := none
deriving DecidableEq, Repr

/-- One call made by the engine on the persistence layer during a run. -/
inductive StoreCall where
  /-- the fallback `database.query(user_id, limit=1, order_by="created_at",
  order_direction="desc")` in `_workout_parser_node`. -/
  | queryRecent (user_id : String) (limit : Nat) (order_by order_direction : String)
  /-- the engine invoking `database.create(state)`; arguments are the state
  fields the call carries (plus the owner). -/
  | createCall (user_id : String) (exercise : Option String)
      (sets reps : Option Int) (weight : Option String)
  /-- the actual Supabase `insert` reached inside `WorkoutCRUD.create`
  after the truthiness pre-check passed. -/
  | insertRow (user_id exercise : String) (sets reps : Int) (weight : String)
      (rest_time : Option Int) (comments : Option String)
  /-- Model of `database.update(workout_id, user_id, update_data)`. -/
  | updateCall (workout_id user_id : String) (data : UpdateData)
  /-- Model of `database.delete(workout_id, user_id)`. -/
  | deleteCall (workout_id user_id : String)
deriving DecidableEq, Repr

def isQueryRecent : StoreCall → Bool
  | .queryRecent .. => true
  | _ => false

def isCreateCall : StoreCall → Bool
  | .createCall .. => true
  | _ => false

def isInsertRow : StoreCall → Bool
  | .insertRow .. => true
  | _ => false

def isUpdateCall : StoreCall → Bool
  | .updateCall .. => true
  | _ => false

def isDeleteCall : StoreCall → Bool
  | .deleteCall .. => true
  | _ => false

deriving instance DecidableEq for Except

/-- Behaviour of the external collaborators during one run.  `Except Unit α`
models a Python call that either returns an `α` or raises. -/
structure Env where
  /-- Model of `WorkoutParser.process(user_input)` — the LLM extractor. -/
  parseResult : Except Unit WorkoutParserResponse
  /-- rows returned (or exception raised) by the Supabase select behind the
  fallback `WorkoutCRUD.query` call. -/
  recentQueryResult : Except Unit (List WorkoutDBModel)
  /-- Model of `response.data` of (or exception raised by) the Supabase insert inside
  `WorkoutCRUD.create`. -/
  insertResult : Except Unit (List WorkoutDBModel)
  /-- Model of `response.data` of (or exception raised by) the Supabase update inside
  `WorkoutCRUD.update`. -/
  updateResult : Except Unit (List WorkoutDBModel)
  /-- rows returned (or exception raised) by the Supabase delete inside
  `WorkoutCRUD.delete`; the code ignores the rows. -/
  deleteResult : Except Unit (List WorkoutDBModel)
  /-- Model of `WorkoutReader.retrieve(user_input, user_id)` — the LLM read agent. -/
  readResult : Except Unit String
  /-- the id extracted by `json.loads` from the reader's response text when
  that text parses as a non-empty list whose first element has an `"id"` key;
  `none` when parsing fails (abstracts JSON decoding of the external text). -/
  readExtractedId : Option String
deriving DecidableEq, Repr

/-! ## WorkoutCRUD (crud.py) -/

/-- The rows the fallback query yields: `WorkoutCRUD.query` catches every
exception and returns `[]` (crud.py lines 214-216). -/
def fallbackRows (env : Env) : List WorkoutDBModel :=
  match env.recentQueryResult with
  | .ok rows => rows
  | .error _ => []

/-- Model of `WorkoutCRUD.query` as invoked by the parser-node fallback, with the
call logged.  The filter arguments are those of workout_graph.py lines
238-243. -/
def crudQueryRecent (env : Env) (uid : String) :
    List WorkoutDBModel × List StoreCall :=
  (fallbackRows env, [.queryRecent uid 1 "created_at" "desc"])

/-- Model of `WorkoutCRUD.create` (crud.py lines 57-123): raises `ValueError` when any
of exercise/sets/reps/weight is falsy, otherwise inserts and returns the
first returned row (`None` when the insert returned no data); any insert
exception is re-raised. -/
def crudCreate (env : Env) (st : WorkoutState) :
    Except PyErr (Option WorkoutDBModel) × List StoreCall :=
  if strOptTruthy st.exercise && intOptTruthy st.sets &&
      intOptTruthy st.reps && strOptTruthy st.weight then
    let row : StoreCall :=
      .insertRow st.user_id (pyS st.exercise) (st.sets.getD 0) (st.reps.getD 0)
        (pyS st.weight) st.rest_time st.comments
    match env.insertResult with
    | .ok rows => (.ok rows.head?, [row])
    | .error _ => (.error .otherError, [row])
  else
    (.error (.valueError "Cannot create workout: missing required fields"), [])

/-- Model of `WorkoutCRUD.update` (crud.py lines 218-274): returns the first returned
row, `None` when no row matched, and catches every exception into `None`. -/
def crudUpdate (env : Env) (wid uid : String) (data : UpdateData) :
    Option WorkoutDBModel × List StoreCall :=
  match env.updateResult with
  | .ok rows => (rows.head?, [.updateCall wid uid data])
  | .error _ => (none, [.updateCall wid uid data])

/-- Model of `WorkoutCRUD.delete` (crud.py lines 276-320): returns `True` exactly when
the Supabase call raised no exception, ignoring how many rows matched. -/
def crudDelete (env : Env) (wid uid : String) : Bool × List StoreCall :=
  match env.deleteResult with
  | .ok _ => (true, [.deleteCall wid uid])
  | .error _ => (false, [.deleteCall wid uid])

/-! ## Validator (nodes/workout_validator.py) -/

/-- Model of `WorkoutValidator.REQUIRED_FIELDS`. -/
def REQUIRED_FIELDS : List String := ["exercise", "sets", "reps", "weight"]

/-- The per-field test of `WorkoutValidator.validate`:
`value = getattr(state, field, None); value is None or value == ""`.
For the `int` fields `sets`/`reps` the `== ""` comparison is always false in
Python, so only `None` counts; for an unknown attribute `getattr` defaults
to `None`, which counts as missing. -/
def fieldMissing (st : WorkoutState) : String → Bool
  | "exercise" => st.exercise == none || st.exercise == some ""
  | "sets" => st.sets == none
  | "reps" => st.reps == none
  | "weight" => st.weight == none || st.weight == some ""
  | _ => true

/-- The `missing_fields` list built by `WorkoutValidator.validate`
(lines 62-67): the loop appends each required field whose value is `None`
or the empty string — a filter of `REQUIRED_FIELDS`. -/
def missingOf (st : WorkoutState) : List String :=
  REQUIRED_FIELDS.filter (fieldMissing st)

/-- Model of `WorkoutValidator.validate` (workout_validator.py lines 38-73). -/
def validate (st : WorkoutState) : WorkoutState :=
  let m := missingOf st
  { st with
    validation_status := some (if m.isEmpty then "complete" else "incomplete"),
    missing_fields := m }

/-! ## Python uuid handling

`_workout_updator_node` and `_workout_deletor_node` run
`UUID(state.workout_id)` inside their `try`, so a malformed id string becomes
a caught `ValueError`.  Modelled from Python's `uuid.UUID` constructor in its
common forms: hyphens are removed and exactly 32 hexadecimal digits must
remain (the rare `urn:uuid:`/braced forms are not modelled; no claim
exercises them). -/

def isHexChar (c : Char) : Bool :=
  c.isDigit || ('a' ≤ c && c ≤ 'f') || ('A' ≤ c && c ≤ 'F')

/-- Whether `uuid.UUID(s)` succeeds. -/
def pyUUIDOk (s : String) : Bool :=
  let t := s.data.filter (fun c => c ≠ '-')
  t.length == 32 && t.all isHexChar

/-- Model of `str(uuid.UUID(s))`: canonical lowercase hyphenated form. -/
def pyUUIDStr (s : String) : String :=
  let t := (s.data.filter (fun c => c ≠ '-')).map Char.toLower
  ⟨t.take 8⟩ ++ "-" ++ ⟨(t.drop 8).take 4⟩ ++ "-" ++ ⟨(t.drop 12).take 4⟩ ++
    "-" ++ ⟨(t.drop 16).take 4⟩ ++ "-" ++ ⟨t.drop 20⟩

/-- Python `str.capitalize`: first character uppercased, the rest lowered. -/
def pyCapitalize (s : String) : String :=
  match s.data with
  | [] => ""
  | c :: cs => ⟨c.toUpper :: cs.map Char.toLower⟩

/-! ## WorkoutGraph (workout_graph.py) -/

/-- The four targets of the conditional edge out of `workout_parser`
(workout_graph.py lines 102-111). -/
inductive Branch where
  | reader | updator | deletor | validator
deriving DecidableEq, Repr

/-- Model of `WorkoutGraph._route_by_intent` (workout_graph.py lines 127-158). -/
def routeByIntent (st : WorkoutState) : Branch :=
  if st.intent = some "get" then .reader
  else if st.intent = some "delete" then .deletor
  else if st.intent = some "put" ∧ strOptTruthy st.workout_id = true then .updator
  else .validator

/-- Model of `WorkoutGraph._should_save_to_database` (workout_graph.py lines 160-181). -/
def shouldSaveToDatabase (st : WorkoutState) : Bool :=
  st.intent == some "put" && st.validation_status == some "complete"

/-- The state-update part of `_workout_parser_node` (lines 211-218): copy the
extractor's fields into the state. -/
def applyParsed (st : WorkoutState) (p : WorkoutParserResponse) : WorkoutState :=
  { st with
    exercise := p.exercise, sets := p.sets, reps := p.reps, weight := p.weight,
    rest_time := p.rest_time, comments := p.comments, workout_id := p.workout_id }

/-- The `should_get_recent` flag of `_workout_parser_node` (lines 225-233). -/
def shouldGetRecent (st : WorkoutState) : Bool :=
  if st.intent = some "delete" then true
  else if st.intent = some "put" ∧
      (st.sets ≠ none ∨ st.reps ≠ none ∨ st.weight ≠ none) then true
  else false

/-- Model of `WorkoutGraph._workout_parser_node` (lines 183-254) given the extractor's
already-obtained output `p`: apply the parsed fields, then run the
identifier fallback when intent is put/delete and `workout_id` is falsy. -/
def workoutParserNode (env : Env) (st : WorkoutState) (p : WorkoutParserResponse) :
    WorkoutState × List StoreCall :=
  let st := applyParsed st p
  if (st.intent = some "put" ∨ st.intent = some "delete") ∧
      strOptTruthy st.workout_id = false then
    if shouldGetRecent st then
      let (rows, log) := crudQueryRecent env st.user_id
      match rows.head? with
      | some r => ({ st with workout_id := some r.id }, log)
      | none => (st, log)
    else (st, [])
  else (st, [])

/-- Model of `WorkoutGraph._workout_validator_node` (lines 315-332). -/
def workoutValidatorNode (st : WorkoutState) : WorkoutState :=
  validate st

/-- Model of `WorkoutGraph._workout_reader_node` (lines 256-313): on success the
response is the reader agent's text and the first returned id (when the
text JSON-decodes to a list of rows) is kept for later updates; a reader
exception becomes the apology message. -/
def workoutReaderNode (env : Env) (st : WorkoutState) :
    WorkoutState × List StoreCall :=
  match env.readResult with
  | .ok s =>
    let st := { st with response := s }
    match env.readExtractedId with
    | some i => ({ st with workout_id := some i }, [])
    | none => (st, [])
  | .error _ =>
    ({ st with response :=
        "Sorry, I encountered an error retrieving your workouts. Please try again." }, [])

/-- Model of `WorkoutGraph._workout_saver_node` (lines 334-378). -/
def workoutSaverNode (env : Env) (st : WorkoutState) :
    WorkoutState × List StoreCall :=
  let call : List StoreCall :=
    [.createCall st.user_id st.exercise st.sets st.reps st.weight]
  let (res, log) := crudCreate env st
  match res with
  | .ok (some _) =>
    ({ st with response :=
        ("Workout saved! " ++ pyS st.exercise ++ ": " ++ pyI st.sets ++ "x" ++
          pyI st.reps ++ " @ " ++ pyS st.weight) }, call ++ log)
  | .ok none =>
    ({ st with response := "Failed to save workout. Please try again." }, call ++ log)
  | .error (.valueError m) =>
    ({ st with response := "Cannot save workout: " ++ m }, call ++ log)
  | .error .otherError =>
    ({ st with response :=
        "An error occurred while saving your workout. Please try again." }, call ++ log)

/-- Model of `update_data` built by `_workout_updator_node` (lines 413-426): exactly
the non-`None` state fields. -/
def buildUpdateData (st : WorkoutState) : UpdateData :=
  { exercise := st.exercise, sets := st.sets, reps := st.reps,
    weight := st.weight, rest_time := st.rest_time, comments := st.comments }

/-- Model of `if not update_data` (line 428). -/
def updateDataEmpty (d : UpdateData) : Bool :=
  d.exercise == none && d.sets == none && d.reps == none &&
    d.weight == none && d.rest_time == none && d.comments == none

/-- The `changes` list of `_workout_updator_node` (lines 452-466), in the
fixed order sets, reps, weight, exercise, rest_time, comments. -/
def changesList (d : UpdateData) : List String :=
  (match d.sets with
   | some n => ["sets changed to " ++ toString n]
   | none => []) ++
  (match d.reps with
   | some n => ["reps changed to " ++ toString n]
   | none => []) ++
  (match d.weight with
   | some w => ["weight changed to " ++ w]
   | none => []) ++
  (match d.exercise with
   | some e => ["exercise changed to " ++ e]
   | none => []) ++
  (match d.rest_time with
   | some r => ["rest time changed to " ++ toString r ++ " seconds"]
   | none => []) ++
  (match d.comments with
   | some _ => ["comments updated"]
   | none => [])

/-- Model of `WorkoutGraph._workout_updator_node` (lines 380-489). -/
def workoutUpdatorNode (env : Env) (st : WorkoutState) :
    WorkoutState × List StoreCall :=
  if strOptTruthy st.workout_id = false then
    ({ st with response :=
        "Cannot update workout: workout ID is required. Please specify which workout to update." }, [])
  else
    let d := buildUpdateData st
    if updateDataEmpty d then
      ({ st with response :=
          "Cannot update workout: no fields to update. Please specify what to change." }, [])
    else
      let wid := pyS st.workout_id
      if pyUUIDOk wid then
        let (res, log) := crudUpdate env (pyUUIDStr wid) st.user_id d
        match res with
        | some u =>
          let cs := changesList d
          let msg := if cs.isEmpty then "workout updated" else String.intercalate ", " cs
          ({ st with response :=
              (pyCapitalize msg ++ ". The record now is: " ++ u.exercise ++ ", " ++
                toString u.sets ++ "x" ++ toString u.reps ++ " @ " ++ u.weight) }, log)
        | none =>
          ({ st with response :=
              "Failed to update workout. Workout not found or you don't have permission to update it." }, log)
      else
        ({ st with response :=
            "Cannot update workout: badly formed hexadecimal UUID string" }, [])

/-- Model of `WorkoutGraph._workout_deletor_node` (lines 491-554). -/
def workoutDeletorNode (env : Env) (st : WorkoutState) :
    WorkoutState × List StoreCall :=
  if strOptTruthy st.workout_id = false then
    ({ st with response :=
        "Cannot delete workout: workout ID is required. Please specify which workout to delete." }, [])
  else
    let wid := pyS st.workout_id
    if pyUUIDOk wid then
      let (ok, log) := crudDelete env (pyUUIDStr wid) st.user_id
      if ok then
        ({ st with response := "Workout deleted successfully." }, log)
      else
        ({ st with response :=
            "Failed to delete workout. Workout not found or you don't have permission to delete it." }, log)
    else
      ({ st with response :=
          "Cannot delete workout: badly formed hexadecimal UUID string" }, [])

/-- The response-producing node (if any) a run ends in; the validator→END
branch produces none. -/
inductive TerminalNode where
  | saver | reader | updator | deletor
deriving DecidableEq, Repr

/-- Model of `WorkoutGraph.run` over the compiled graph (lines 69-125 and 572-604):
START → parser → conditional edge → terminal node → END, with the
validator branch gated by `_should_save_to_database`.  The extractor call
in `_workout_parser_node` (line 209) is not wrapped in any `try`, so its
exception propagates out of `run` (modelled as `.error ()`).  The result
carries the final state, the log of Store calls, and which
response-producing node (if any) ran. -/
def runGraph (env : Env) (st0 : WorkoutState) :
    Except Unit (WorkoutState × List StoreCall × Option TerminalNode) :=
  match env.parseResult with
  | .error _ => .error ()
  | .ok p =>
    let (st1, log1) := workoutParserNode env st0 p
    match routeByIntent st1 with
    | .reader =>
      let (st2, log2) := workoutReaderNode env st1
      .ok (st2, log1 ++ log2, some .reader)
    | .updator =>
      let (st2, log2) := workoutUpdatorNode env st1
      .ok (st2, log1 ++ log2, some .updator)
    | .deletor =>
      let (st2, log2) := workoutDeletorNode env st1
      .ok (st2, log1 ++ log2, some .deletor)
    | .validator =>
      let st2 := workoutValidatorNode st1
      if shouldSaveToDatabase st2 then
        let (st3, log3) := workoutSaverNode env st2
        .ok (st3, log1 ++ log3, some .saver)
      else
        .ok (st2, log1, none)

/-- Final state of a run whose extraction succeeded (projection helper). -/
def runState (env : Env) (st0 : WorkoutState) : WorkoutState :=
  match runGraph env st0 with
  | .ok (st, _, _) => st
  | .error _ => st0

/-- Store calls of a run whose extraction succeeded (projection helper). -/
def runCalls (env : Env) (st0 : WorkoutState) : List StoreCall :=
  match runGraph env st0 with
  | .ok (_, calls, _) => calls
  | .error _ => []

/-- Response-producing node of a run (projection helper). -/
def runTerminal (env : Env) (st0 : WorkoutState) : Option TerminalNode :=
  match runGraph env st0 with
  | .ok (_, _, t) => t
  | .error _ => none

/-! ## Spec-side predicates (for refinement comparison)

These two definitions follow the wording of the specification, not the code;
the theorems compare the code's behaviour against them. -/

/-- Stated from the spec (§4.4/§8): the identifier fallback is attempted iff
the extracted `record_id` is absent and either the intent is delete, or the
intent is the update one with at least one mutable field present.  The
code's intent vocabulary is used (read = "get"; the code has the single
intent "put" where the spec distinguishes create from update). -/
def specFallbackCond (intent : Option String) (p : WorkoutParserResponse) : Prop :=
  strOptTruthy p.workout_id = false ∧
    (intent = some "delete" ∨
      (intent = some "put" ∧ (p.sets ≠ none ∨ p.reps ≠ none ∨ p.weight ≠ none)))

instance (intent : Option String) (p : WorkoutParserResponse) :
    Decidable (specFallbackCond intent p) := by
  unfold specFallbackCond; infer_instance

/-- Stated from the spec (§4.3): whether a required field is absent from the
state (empty string counts as absent); used to express `missing_fields` as
the fixed required-field sequence filtered to the absent ones. -/
def fieldAbsent (st : WorkoutState) : String → Bool
  | "exercise" => st.exercise == none || st.exercise == some ""
  | "sets" => st.sets == none
  | "reps" => st.reps == none
  | "weight" => st.weight == none || st.weight == some ""
  | _ => false

/-! ## Concrete scenario data (spec §8) -/

/-- Scenario A extractor output: a fully-specified create request. -/
def parsedA : WorkoutParserResponse :=
  { exercise := some "squats", sets := some 3, reps := some 10,
    weight := some "135 lbs" }

/-- Scenario B extractor output: only the exercise present. -/
def parsedB : WorkoutParserResponse := { exercise := some "squats" }

/-- Scenario D extractor output: no candidate fields at all. -/
def parsedD : WorkoutParserResponse := {}

/-- A fresh request state carrying the code's shared create/update intent. -/
def initPut : WorkoutState :=
  { user_input := "Squats 3x10 @ 135 lbs", user_id := "u1", intent := some "put" }

/-- A previously persisted workout row of owner u1. -/
def priorRow : WorkoutDBModel :=
  { id := "00000000-0000-4000-8000-000000000001", user_id := "u1",
    exercise := "bench press", sets := 5, reps := 5, weight := "185 lbs" }

/-- The row returned by a successful insert of Scenario A's request. -/
def insertedRow : WorkoutDBModel :=
  { id := "00000000-0000-4000-8000-000000000002", user_id := "u1",
    exercise := "squats", sets := 3, reps := 10, weight := "135 lbs" }

/-- Environment for Scenario A with an empty store: the owner has no prior
records, the insert succeeds, every other call succeeds trivially. -/
def envEmptyStore : Env :=
  { parseResult := .ok parsedA, recentQueryResult := .ok [],
    insertResult := .ok [insertedRow], updateResult := .ok [],
    deleteResult := .ok [], readResult := .ok "[]", readExtractedId := none }

/-- Environment for Scenario A when the owner already has one prior record
and the Store update succeeds on it. -/
def envPriorStore : Env :=
  { parseResult := .ok parsedA
    recentQueryResult := .ok [priorRow]
    insertResult := .ok [insertedRow]
    updateResult :=
      .ok [{ priorRow with
             exercise := "squats"
             sets := 3
             reps := 10
             weight := "135 lbs" }]
    deleteResult := .ok []
    readResult := .ok "[]"
    readExtractedId := none }

/-- Environment whose extractor output is Scenario B's. -/
def envScenB : Env := { envEmptyStore with parseResult := .ok parsedB }

/-- Environment whose extractor output is Scenario D's. -/
def envScenD : Env := { envEmptyStore with parseResult := .ok parsedD }

/-- Environment whose extractor call raises. -/
def envParseFail : Env := { envEmptyStore with parseResult := .error () }

/-- A delete request whose record id is already resolved. -/
def stDelete : WorkoutState :=
  { user_input := "delete my last workout", user_id := "u1",
    intent := some "delete", workout_id := some priorRow.id }

/-- A create request the validator judges complete but whose set count is
zero — falsy under Python truthiness. -/
def stZeroSets : WorkoutState :=
  { user_input := "squats 0x10 @ 135 lbs", user_id := "u1",
    intent := some "put", exercise := some "squats", sets := some 0,
    reps := some 10, weight := some "135 lbs" }

/-! ## Helper lemmas -/

theorem strOptTruthy_true_iff (o : Option String) :
    strOptTruthy o = true ↔ ¬(o = none ∨ o = some "") := by
  cases o <;> simp [strOptTruthy]

theorem intOptTruthy_true_iff (o : Option Int) :
    intOptTruthy o = true ↔ ¬(o = none ∨ o = some 0) := by
  cases o <;> simp [intOptTruthy]

theorem strMissing_eq_not_truthy (o : Option String) :
    (o == none || o == some "") = !(strOptTruthy o) := by
  cases o <;> simp [strOptTruthy]

theorem missingOf_nil_iff (st : WorkoutState) :
    missingOf st = [] ↔
      (fieldMissing st "exercise" = false ∧ fieldMissing st "sets" = false ∧
        fieldMissing st "reps" = false ∧ fieldMissing st "weight" = false) := by
  unfold missingOf REQUIRED_FIELDS
  cases hA : fieldMissing st "exercise" <;>
    cases hB : fieldMissing st "sets" <;>
      cases hC : fieldMissing st "reps" <;>
        cases hD : fieldMissing st "weight" <;>
          simp [List.filter, hA, hB, hC, hD]

theorem fieldMissing_exercise_false (st : WorkoutState) :
    fieldMissing st "exercise" = false ↔ strOptTruthy st.exercise = true := by
  show (st.exercise == none || st.exercise == some "") = false ↔ _
  rw [strMissing_eq_not_truthy]
  cases strOptTruthy st.exercise <;> simp

theorem fieldMissing_weight_false (st : WorkoutState) :
    fieldMissing st "weight" = false ↔ strOptTruthy st.weight = true := by
  show (st.weight == none || st.weight == some "") = false ↔ _
  rw [strMissing_eq_not_truthy]
  cases strOptTruthy st.weight <;> simp

theorem fieldMissing_sets_false (st : WorkoutState) :
    fieldMissing st "sets" = false ↔ st.sets ≠ none := by
  show (st.sets == none) = false ↔ _
  simp [beq_eq_false_iff_ne]

theorem fieldMissing_reps_false (st : WorkoutState) :
    fieldMissing st "reps" = false ↔ st.reps ≠ none := by
  show (st.reps == none) = false ↔ _
  simp [beq_eq_false_iff_ne]

/-! ## C1 — counterexample -/

/-- C1 counterexample: the very Scenario A input (put intent carrying
exercise/sets/reps/weight, no record id) run against a Store where the owner
already has one prior record: the identifier fallback resolves the prior
record's id, the request is routed to the updator, Store.update is called
once and Store.create is never called — contradicting the claim. -/
theorem create_request_prior_record_triggers_update :
    (runCalls envPriorStore initPut).countP isCreateCall = 0 ∧
    (runCalls envPriorStore initPut).countP isUpdateCall = 1 ∧
    runTerminal envPriorStore initPut = some .updator := by decide

/-! ## C2 — counterexample -/

/-- C2 counterexample: a single run that both attempts the fallback query and
ends in Store.create — the Scenario A request (which the spec classifies as
create intent) does trigger the most-recent-record lookup, contradicting
"never attempted for create intent". -/
theorem fallback_attempted_for_create_request :
    (runCalls envEmptyStore initPut).countP isQueryRecent = 1 ∧
    (runCalls envEmptyStore initPut).countP isCreateCall = 1 := by decide

/-! ## C3 — counterexample -/

/-- C3 counterexample: Scenario B's request (incomplete create) reaches END
with an empty response: the final response is not a non-empty string. -/
theorem incomplete_create_response_empty :
    runGraph envScenB initPut ≠ .error () ∧
    (runState envScenB initPut).response = "" := by decide

/-! ## C4 — counterexample -/

/-- C4 counterexample: for Scenario B the validator does record exactly the
three absent fields and Store.create is never called, but the terminal
response is the empty string — it does not enumerate the missing fields. -/
theorem incomplete_create_no_rejection_message :
    (runCalls envScenB initPut).countP isCreateCall = 0 ∧
    (runState envScenB initPut).missing_fields = ["sets", "reps", "weight"] ∧
    (runState envScenB initPut).response = "" := by decide

/-! ## C5 — counterexample -/

/-- C5 counterexample: an update-intent request without record id and without
any candidate field ends with an empty response; it does not ask for an
identifier (the updator's "workout ID is required" message is not produced,
because the request is routed to the validator branch instead). -/
theorem update_no_fields_response_empty :
    (runState envScenD initPut).response = "" ∧
    (runState envScenD initPut).response ≠
      "Cannot update workout: workout ID is required. Please specify which workout to update." ∧
    (runCalls envScenD initPut).countP isUpdateCall = 0 := by decide

/-! ## C8 — counterexample -/

/-- C8 counterexample: when the extractor call raises, the exception is not
caught by any node boundary: the whole run terminates abnormally instead of
producing an apology response. -/
theorem extractor_failure_propagates :
    runGraph envParseFail initPut = .error () := by decide

/-! ## C7 — intent dispatch -/

/-- C7: intent dispatch is a deterministic total function of the pair
(intent, record id present?): "get" (read) routes to the reader, "delete" to
the deletor, "put" (the update intent) with a truthy workout id to the
updator, and every other combination — including an unknown or missing
intent — falls through to the validator branch (create-pending); the result
depends on nothing but that pair, and the function is total (no exception,
no side effect, being a pure total Lean function). -/
theorem dispatch_total_deterministic (st : WorkoutState) :
    (st.intent = some "get" → routeByIntent st = .reader) ∧
    (st.intent = some "delete" → routeByIntent st = .deletor) ∧
    (st.intent = some "put" → strOptTruthy st.workout_id = true →
      routeByIntent st = .updator) ∧
    (st.intent ≠ some "get" → st.intent ≠ some "delete" →
      ¬(st.intent = some "put" ∧ strOptTruthy st.workout_id = true) →
      routeByIntent st = .validator) ∧
    (∀ t : WorkoutState, t.intent = st.intent →
      strOptTruthy t.workout_id = strOptTruthy st.workout_id →
      routeByIntent t = routeByIntent st) := by
  refine ⟨?_, ?_, ?_, ?_, ?_⟩
  · intro h; simp [routeByIntent, h]
  · intro h; simp [routeByIntent, h]
  · intro h1 h2; simp [routeByIntent, h1, h2]
  · intro h1 h2 h3; simp [routeByIntent, h1, h2, h3]
  · intro t h1 h2; simp [routeByIntent, h1, h2]

/-- C7 witness: an unrecognised intent falls through to the create-pending
branch and a read intent routes to the reader. -/
theorem dispatch_total_deterministic_witness :
    routeByIntent { user_input := "", user_id := "u1", intent := some "unknown" } =
      .validator ∧
    routeByIntent { user_input := "", user_id := "u1", intent := some "get" } =
      .reader :=
  ⟨(dispatch_total_deterministic _).2.2.2.1 (by decide) (by decide) (by decide),
   (dispatch_total_deterministic _).1 rfl⟩

/-! ## C6 — validator -/

/-- C6: the validator marks the state complete iff each of exercise, sets,
reps and weight is present and non-empty (the empty string counting as
absent; for the integer fields presence alone, since an integer is never the
empty string); otherwise it marks it incomplete, and `missing_fields` always
equals the fixed required sequence [exercise, sets, reps, weight] filtered
to the absent fields — a function of those four field values only, so
independent of how the fields were supplied. -/
theorem validator_complete_iff (st : WorkoutState) :
    ((validate st).validation_status = some "complete" ↔
      (strOptTruthy st.exercise = true ∧ st.sets ≠ none ∧ st.reps ≠ none ∧
        strOptTruthy st.weight = true)) ∧
    ((validate st).validation_status = some "complete" ∨
      (validate st).validation_status = some "incomplete") ∧
    ((validate st).missing_fields = REQUIRED_FIELDS.filter (fieldAbsent st)) ∧
    (∀ t : WorkoutState, t.exercise = st.exercise → t.sets = st.sets →
      t.reps = st.reps → t.weight = st.weight →
      (validate t).validation_status = (validate st).validation_status ∧
      (validate t).missing_fields = (validate st).missing_fields) := by
  have hstat : (validate st).validation_status = some "complete" ↔
      missingOf st = [] := by
    by_cases hm2 : (missingOf st).isEmpty
    · simp [validate, hm2, List.isEmpty_iff.mp hm2]
    · constructor
      · intro h; simp [validate, hm2] at h
      · intro h; exact absurd (by simp [h]) hm2
  refine ⟨?_, ?_, ?_, ?_⟩
  · rw [hstat, missingOf_nil_iff, fieldMissing_exercise_false,
      fieldMissing_sets_false, fieldMissing_reps_false, fieldMissing_weight_false]
  · by_cases hm2 : (missingOf st).isEmpty <;> simp [validate, hm2]
  · show missingOf st = _
    unfold missingOf REQUIRED_FIELDS
    have e1 : fieldMissing st "exercise" = fieldAbsent st "exercise" := rfl
    have e2 : fieldMissing st "sets" = fieldAbsent st "sets" := rfl
    have e3 : fieldMissing st "reps" = fieldAbsent st "reps" := rfl
    have e4 : fieldMissing st "weight" = fieldAbsent st "weight" := rfl
    simp [List.filter, e1, e2, e3, e4]
  · intro t h1 h2 h3 h4
    have hfm : fieldMissing t = fieldMissing st := by
      funext f
      unfold fieldMissing
      rw [h1, h2, h3, h4]
    constructor <;> simp [validate, missingOf, hfm]

/-- C6 witness: a state missing sets, reps and weight is incomplete with
exactly those fields listed in the fixed order, and a state with the same
four field values but different other fields validates identically. -/
theorem validator_complete_iff_witness :
    (validate { user_input := "log squats", user_id := "u1",
                exercise := some "squats" }).missing_fields =
      REQUIRED_FIELDS.filter
        (fieldAbsent { user_input := "log squats", user_id := "u1",
                       exercise := some "squats" }) ∧
    (validate { user_input := "other", user_id := "u2",
                exercise := some "squats" }).validation_status =
      (validate { user_input := "log squats", user_id := "u1",
                  exercise := some "squats" }).validation_status :=
  ⟨(validator_complete_iff _).2.2.1,
   ((validator_complete_iff _).2.2.2 _ rfl rfl rfl rfl).1⟩

/-! ## C9 — delete ambiguity -/

/-- C9: for a delete request with the record id resolved (a well-formed uuid
string in `workout_id`), WorkoutCRUD.delete returns true exactly when the
Supabase call raised no exception, and the deletor node reports success
whenever the call completed — for every returned row payload, including the
empty one where no row matched: the engine cannot distinguish "deleted" from
"nothing to delete". -/
theorem delete_reports_success_iff_no_exception (env : Env) (st : WorkoutState)
    (wid : String) (rows : List WorkoutDBModel)
    (hid : st.workout_id = some wid) (hne : wid ≠ "")
    (hok : pyUUIDOk wid = true) :
    ((crudDelete env (pyUUIDStr wid) st.user_id).1 = true ↔
      env.deleteResult ≠ .error ()) ∧
    (env.deleteResult = .ok rows →
      (workoutDeletorNode env st).1.response = "Workout deleted successfully." ∧
      (workoutDeletorNode env st).2 =
        [.deleteCall (pyUUIDStr wid) st.user_id]) := by
  constructor
  · cases hd : env.deleteResult <;> simp [crudDelete, hd]
  · intro hd
    constructor <;>
      simp [workoutDeletorNode, hid, strOptTruthy, hne, hok, crudDelete, hd, pyS]

/-- C9 witness: the Store delete returns an empty row payload (nothing
matched), and the engine still reports success. -/
theorem delete_reports_success_witness :
    (workoutDeletorNode envEmptyStore stDelete).1.response =
      "Workout deleted successfully." :=
  ((delete_reports_success_iff_no_exception envEmptyStore stDelete priorRow.id []
      rfl (by decide) (by decide)).2 rfl).1

/-! ## C10 — truthiness gap between validator and Store.create -/

/-- C10: WorkoutCRUD.create raises ValueError — before attempting any insert
— whenever any of exercise, sets, reps or weight is falsy under Python
truthiness (None, 0 or the empty string), which includes a zero set or rep
count; consequently a state the validator judges complete but whose set
count is zero is never persisted: the saver node calls Store.create, catches
the ValueError and responds with the "Cannot save workout" error message. -/
theorem create_raises_on_falsy_fields :
    (∀ env st,
      (strOptTruthy st.exercise = false ∨ intOptTruthy st.sets = false ∨
        intOptTruthy st.reps = false ∨ strOptTruthy st.weight = false) →
      (crudCreate env st).1 =
        .error (.valueError "Cannot create workout: missing required fields") ∧
      (crudCreate env st).2 = []) ∧
    (∀ env st, st.sets = some 0 → strOptTruthy st.exercise = true →
      st.reps ≠ none → strOptTruthy st.weight = true →
      (validate st).validation_status = some "complete" ∧
      (workoutSaverNode env (validate st)).1.response =
        "Cannot save workout: Cannot create workout: missing required fields" ∧
      (workoutSaverNode env (validate st)).2.countP isInsertRow = 0 ∧
      (workoutSaverNode env (validate st)).2.countP isCreateCall = 1) := by
  constructor
  · intro env st h
    rcases h with h | h | h | h <;> simp [crudCreate, h]
  · intro env st hs0 hex hreps hw
    have hm : missingOf st = [] :=
      (missingOf_nil_iff st).mpr
        ⟨(fieldMissing_exercise_false st).mpr hex,
         (fieldMissing_sets_false st).mpr (by simp [hs0]),
         (fieldMissing_reps_false st).mpr hreps,
         (fieldMissing_weight_false st).mpr hw⟩
    have hv : validate st =
        { st with validation_status := some "complete", missing_fields := [] } := by
      simp [validate, hm]
    rw [hv]
    refine ⟨rfl, ?_, ?_, ?_⟩ <;>
      simp [workoutSaverNode, crudCreate, intOptTruthy, hs0, isInsertRow,
        isCreateCall]

/-- C10 witness: a concrete complete-but-zero-sets state is rejected by
Store.create with the "Cannot save workout" response. -/
theorem create_raises_on_falsy_witness :
    (validate stZeroSets).validation_status = some "complete" ∧
    (workoutSaverNode envEmptyStore (validate stZeroSets)).1.response =
      "Cannot save workout: Cannot create workout: missing required fields" :=
  ⟨(create_raises_on_falsy_fields.2 envEmptyStore stZeroSets rfl (by decide)
      (by decide) (by decide)).1,
   (create_raises_on_falsy_fields.2 envEmptyStore stZeroSets rfl (by decide)
      (by decide) (by decide)).2.1⟩

end Gymmando

namespace Gymmando

/-- Helper: the parser node attempts the fallback query exactly under the
code-level condition `specFallbackCond`, and on a hit rewrites `workout_id`
to the most recent record's id. -/
theorem parserNode_spec (env : Env) (st0 : WorkoutState) (p : WorkoutParserResponse) :
    (workoutParserNode env st0 p).2 =
      (if specFallbackCond st0.intent p
        then [StoreCall.queryRecent st0.user_id 1 "created_at" "desc"] else []) ∧
    (workoutParserNode env st0 p).1 =
      (if specFallbackCond st0.intent p
        then (match (fallbackRows env).head? with
              | some r => { applyParsed st0 p with workout_id := some r.id }
              | none => applyParsed st0 p)
        else applyParsed st0 p) := by
  have hint : (applyParsed st0 p).intent = st0.intent := rfl
  have hwid : (applyParsed st0 p).workout_id = p.workout_id := rfl
  have huid : (applyParsed st0 p).user_id = st0.user_id := rfl
  by_cases hw : strOptTruthy p.workout_id = false
  · by_cases hdel : st0.intent = some "delete"
    · have hspec : specFallbackCond st0.intent p := ⟨hw, .inl hdel⟩
      have hsgr : shouldGetRecent (applyParsed st0 p) = true := by
        unfold shouldGetRecent
        rw [hint, if_pos hdel]
      rw [if_pos hspec, if_pos hspec]
      unfold workoutParserNode crudQueryRecent
      cases hh : (fallbackRows env).head? <;>
        simp [hint, hwid, huid, hdel, hw, hsgr, hh]
    · by_cases hput : st0.intent = some "put"
      · by_cases hf : (p.sets ≠ none ∨ p.reps ≠ none ∨ p.weight ≠ none)
        · have hspec : specFallbackCond st0.intent p := ⟨hw, .inr ⟨hput, hf⟩⟩
          have hsgr : shouldGetRecent (applyParsed st0 p) = true := by
            unfold shouldGetRecent
            rw [hint, hput, if_neg (by simp), if_pos ⟨rfl, hf⟩]
          rw [if_pos hspec, if_pos hspec]
          unfold workoutParserNode crudQueryRecent
          cases hh : (fallbackRows env).head? <;>
            simp [hint, hwid, huid, hput, hw, hsgr, hh]
        · have hnspec : ¬specFallbackCond st0.intent p := by
            rintro ⟨_, h | ⟨_, h⟩⟩
            · exact hdel h
            · exact hf h
          have hsgr : shouldGetRecent (applyParsed st0 p) = false := by
            unfold shouldGetRecent
            rw [hint, hput, if_neg (by simp), if_neg (fun h => hf h.2)]
          rw [if_neg hnspec, if_neg hnspec]
          unfold workoutParserNode
          simp [hint, hwid, hput, hw, hsgr]
      · have hnspec : ¬specFallbackCond st0.intent p := by
          rintro ⟨_, h | ⟨h, _⟩⟩
          · exact hdel h
          · exact hput h
        rw [if_neg hnspec, if_neg hnspec]
        unfold workoutParserNode
        simp [hint, hwid, hput, hdel]
  · have hnspec : ¬specFallbackCond st0.intent p := fun h => hw h.1
    rw [if_neg hnspec, if_neg hnspec]
    unfold workoutParserNode
    simp [hint, hwid, hw]

theorem readerNode_no_calls (env : Env) (st : WorkoutState) :
    (workoutReaderNode env st).2 = [] := by
  cases hr : env.readResult <;> simp [workoutReaderNode, hr]
  cases hi : env.readExtractedId <;> simp [hi]

theorem crudCreate_countP_query (env : Env) (st : WorkoutState) :
    (crudCreate env st).2.countP isQueryRecent = 0 := by
  unfold crudCreate
  split
  · cases hi : env.insertResult <;>
      simp [hi, isQueryRecent, List.countP_cons, List.countP_nil]
  · simp

theorem crudCreate_countP_update (env : Env) (st : WorkoutState) :
    (crudCreate env st).2.countP isUpdateCall = 0 := by
  unfold crudCreate
  split
  · cases hi : env.insertResult <;>
      simp [hi, isUpdateCall, List.countP_cons, List.countP_nil]
  · simp

theorem saverNode_calls (env : Env) (st : WorkoutState) :
    (workoutSaverNode env st).2 =
      StoreCall.createCall st.user_id st.exercise st.sets st.reps st.weight ::
        (crudCreate env st).2 := by
  rcases h : crudCreate env st with ⟨res, log⟩
  rcases res with err | res
  · cases err <;> simp [workoutSaverNode, h]
  · cases res <;> simp [workoutSaverNode, h]

theorem saverNode_countP_query (env : Env) (st : WorkoutState) :
    (workoutSaverNode env st).2.countP isQueryRecent = 0 := by
  rw [saverNode_calls]
  simp [List.countP_cons, isQueryRecent, crudCreate_countP_query]

theorem saverNode_countP_update (env : Env) (st : WorkoutState) :
    (workoutSaverNode env st).2.countP isUpdateCall = 0 := by
  rw [saverNode_calls]
  simp [List.countP_cons, isUpdateCall, crudCreate_countP_update]

theorem updatorNode_calls_shape (env : Env) (st : WorkoutState) :
    (workoutUpdatorNode env st).2 = [] ∨
    ∃ wid d, (workoutUpdatorNode env st).2 =
      [StoreCall.updateCall wid st.user_id d] := by
  unfold workoutUpdatorNode
  split
  · simp
  · simp only []
    split
    · simp
    · split
      · cases hu : env.updateResult with
        | error e =>
          right
          exact ⟨pyUUIDStr (pyS st.workout_id), buildUpdateData st,
            by simp [crudUpdate, hu]⟩
        | ok rows =>
          right
          refine ⟨pyUUIDStr (pyS st.workout_id), buildUpdateData st, ?_⟩
          simp only [crudUpdate, hu]
          cases hh : rows.head? <;> rfl
      · simp

theorem updatorNode_countP_query (env : Env) (st : WorkoutState) :
    (workoutUpdatorNode env st).2.countP isQueryRecent = 0 := by
  rcases updatorNode_calls_shape env st with h | ⟨wid, d, h⟩ <;>
    simp [h, isQueryRecent, List.countP_cons]

theorem updatorNode_countP_create (env : Env) (st : WorkoutState) :
    (workoutUpdatorNode env st).2.countP isCreateCall = 0 := by
  rcases updatorNode_calls_shape env st with h | ⟨wid, d, h⟩ <;>
    simp [h, isCreateCall, List.countP_cons]

theorem deletorNode_calls_shape (env : Env) (st : WorkoutState) :
    (workoutDeletorNode env st).2 = [] ∨
    ∃ wid, (workoutDeletorNode env st).2 =
      [StoreCall.deleteCall wid st.user_id] := by
  unfold workoutDeletorNode
  split
  · simp
  · simp only []
    split
    · cases hd : env.deleteResult with
      | error e =>
        right
        exact ⟨pyUUIDStr (pyS st.workout_id), by simp [crudDelete, hd]⟩
      | ok rows =>
        right
        exact ⟨pyUUIDStr (pyS st.workout_id), by simp [crudDelete, hd]⟩
    · simp

theorem deletorNode_countP_query (env : Env) (st : WorkoutState) :
    (workoutDeletorNode env st).2.countP isQueryRecent = 0 := by
  rcases deletorNode_calls_shape env st with h | ⟨wid, h⟩ <;>
    simp [h, isQueryRecent, List.countP_cons]

theorem deletorNode_countP_create (env : Env) (st : WorkoutState) :
    (workoutDeletorNode env st).2.countP isCreateCall = 0 := by
  rcases deletorNode_calls_shape env st with h | ⟨wid, h⟩ <;>
    simp [h, isCreateCall, List.countP_cons]

theorem deletorNode_countP_update (env : Env) (st : WorkoutState) :
    (workoutDeletorNode env st).2.countP isUpdateCall = 0 := by
  rcases deletorNode_calls_shape env st with h | ⟨wid, h⟩ <;>
    simp [h, isUpdateCall, List.countP_cons]

/-- C2 (amended): the identifier fallback query is attempted — exactly once —
iff `record_id` is absent post-extraction and either intent = delete, or
intent = put (the code's single shared create/update intent) with at least
one of sets/reps/weight present.  It is never attempted for read intent, but
because the code cannot distinguish create from update, it IS attempted for
requests the spec classifies as create whenever they carry mutable fields. -/
theorem fallback_attempted_iff (env : Env) (st0 : WorkoutState)
    (p : WorkoutParserResponse) (hp : env.parseResult = .ok p) :
    (runCalls env st0).countP isQueryRecent =
      (if specFallbackCond st0.intent p then 1 else 0) := by
  rcases hP : workoutParserNode env st0 p with ⟨st1, log1⟩
  have h := (parserNode_spec env st0 p).1
  rw [hP] at h
  have hlog1 : log1.countP isQueryRecent =
      (if specFallbackCond st0.intent p then 1 else 0) := by
    rw [show log1 = (st1, log1).2 from rfl, h]
    split <;> simp [isQueryRecent, List.countP_cons]
  unfold runCalls runGraph
  rw [hp]
  simp only [hP]
  cases hr : routeByIntent st1 <;> simp only [hr]
  · simp [List.countP_append, hlog1, readerNode_no_calls]
  · simp [List.countP_append, hlog1, updatorNode_countP_query]
  · simp [List.countP_append, hlog1, deletorNode_countP_query]
  · by_cases hs : shouldSaveToDatabase (workoutValidatorNode st1) = true <;>
      simp [hs, List.countP_append, hlog1, saverNode_countP_query]

/-- C1 (amended): for a put-intent request carrying exercise, set count, rep
count and weight and no record id, PROVIDED the identifier fallback finds no
prior record of the owner and the Store insert succeeds, the engine calls
Store.create exactly once with those four fields plus the owner id, never
calls Store.update, and the response echoes the exercise, the sets-x-reps
string and the weight.  (When the owner does have prior records the fallback
resolves one and the request becomes an update instead — see the
counterexample.) -/
theorem create_request_saves_when_no_prior_record (env : Env) (st0 : WorkoutState)
    (p : WorkoutParserResponse) (ex w : String) (s r : Int)
    (hintent : st0.intent = some "put")
    (hpe : p.exercise = some ex) (hex : ex ≠ "")
    (hps : p.sets = some s) (hs : s ≠ 0)
    (hpr : p.reps = some r) (hr : r ≠ 0)
    (hpw : p.weight = some w) (hw : w ≠ "")
    (hpid : p.workout_id = none)
    (hp : env.parseResult = .ok p)
    (hq : fallbackRows env = [])
    (rec : WorkoutDBModel) (rest : List WorkoutDBModel)
    (hins : env.insertResult = .ok (rec :: rest)) :
    (runCalls env st0).countP isCreateCall = 1 ∧
    StoreCall.createCall st0.user_id (some ex) (some s) (some r) (some w) ∈
      runCalls env st0 ∧
    (runCalls env st0).countP isUpdateCall = 0 ∧
    (runState env st0).response =
      "Workout saved! " ++ ex ++ ": " ++ toString s ++ "x" ++ toString r ++
        " @ " ++ w := by
  rcases hP : workoutParserNode env st0 p with ⟨st1, log1⟩
  have hst1 : st1 = applyParsed st0 p := by
    have h2 := (parserNode_spec env st0 p).2
    rw [hP, hq] at h2
    simpa using h2
  subst hst1
  have hlog1c : log1.countP isCreateCall = 0 := by
    have h1 := (parserNode_spec env st0 p).1
    rw [hP] at h1
    rw [show log1 = (applyParsed st0 p, log1).2 from rfl, h1]
    split <;> simp [isCreateCall, List.countP_cons]
  have hlog1u : log1.countP isUpdateCall = 0 := by
    have h1 := (parserNode_spec env st0 p).1
    rw [hP] at h1
    rw [show log1 = (applyParsed st0 p, log1).2 from rfl, h1]
    split <;> simp [isUpdateCall, List.countP_cons]
  have hVex : (workoutValidatorNode (applyParsed st0 p)).exercise = some ex := hpe
  have hVs : (workoutValidatorNode (applyParsed st0 p)).sets = some s := hps
  have hVr : (workoutValidatorNode (applyParsed st0 p)).reps = some r := hpr
  have hVw : (workoutValidatorNode (applyParsed st0 p)).weight = some w := hpw
  have hVuid : (workoutValidatorNode (applyParsed st0 p)).user_id = st0.user_id := rfl
  have hVrest : (workoutValidatorNode (applyParsed st0 p)).rest_time = p.rest_time := rfl
  have hVcom : (workoutValidatorNode (applyParsed st0 p)).comments = p.comments := rfl
  have hroute : routeByIntent (applyParsed st0 p) = .validator := by
    have h1 : (applyParsed st0 p).intent = some "put" := hintent
    have h2 : strOptTruthy (applyParsed st0 p).workout_id = false := by
      show strOptTruthy p.workout_id = false
      rw [hpid]; rfl
    simp [routeByIntent, h1, h2]
  have hmiss : missingOf (applyParsed st0 p) = [] := by
    refine (missingOf_nil_iff _).mpr
      ⟨(fieldMissing_exercise_false _).mpr ?_, (fieldMissing_sets_false _).mpr ?_,
       (fieldMissing_reps_false _).mpr ?_, (fieldMissing_weight_false _).mpr ?_⟩
    · show strOptTruthy p.exercise = true
      rw [hpe]; simp [strOptTruthy, hex]
    · show p.sets ≠ none
      rw [hps]; simp
    · show p.reps ≠ none
      rw [hpr]; simp
    · show strOptTruthy p.weight = true
      rw [hpw]; simp [strOptTruthy, hw]
  have hstat : (workoutValidatorNode (applyParsed st0 p)).validation_status =
      some "complete" := by
    show (validate (applyParsed st0 p)).validation_status = some "complete"
    simp [validate, hmiss]
  have hsave : shouldSaveToDatabase (workoutValidatorNode (applyParsed st0 p)) = true := by
    have h1 : (workoutValidatorNode (applyParsed st0 p)).intent = some "put" := hintent
    simp [shouldSaveToDatabase, h1, hstat]
  have hrun : runGraph env st0 = .ok
      ((workoutSaverNode env (workoutValidatorNode (applyParsed st0 p))).1,
        log1 ++ (workoutSaverNode env (workoutValidatorNode (applyParsed st0 p))).2,
        some .saver) := by
    unfold runGraph
    rw [hp]
    simp [hP, hroute, hsave]
  have hcrud : crudCreate env (workoutValidatorNode (applyParsed st0 p)) =
      (.ok (some rec),
        [.insertRow st0.user_id ex s r w p.rest_time p.comments]) := by
    unfold crudCreate
    rw [hVex, hVs, hVr, hVw, hVuid, hVrest, hVcom, hins]
    simp [strOptTruthy, intOptTruthy, hex, hs, hr, hw, pyS]
  have hsavernode : workoutSaverNode env (workoutValidatorNode (applyParsed st0 p)) =
      ({ workoutValidatorNode (applyParsed st0 p) with
          response := ("Workout saved! " ++ ex ++ ": " ++ toString s ++ "x" ++
            toString r ++ " @ " ++ w) },
        [.createCall st0.user_id (some ex) (some s) (some r) (some w),
         .insertRow st0.user_id ex s r w p.rest_time p.comments]) := by
    unfold workoutSaverNode
    rw [hcrud]
    simp [hVex, hVs, hVr, hVw, hVuid, pyS, pyI]
  have hcalls : runCalls env st0 =
      log1 ++ [.createCall st0.user_id (some ex) (some s) (some r) (some w),
               .insertRow st0.user_id ex s r w p.rest_time p.comments] := by
    simp only [runCalls, hrun, hsavernode]
  have hstate : (runState env st0).response =
      "Workout saved! " ++ ex ++ ": " ++ toString s ++ "x" ++ toString r ++
        " @ " ++ w := by
    simp only [runState, hrun, hsavernode]
  refine ⟨?_, ?_, ?_, hstate⟩
  · rw [hcalls, List.countP_append, hlog1c]
    simp [isCreateCall, isInsertRow, List.countP_cons]
  · rw [hcalls]
    simp
  · rw [hcalls, List.countP_append, hlog1u]
    simp [isUpdateCall, List.countP_cons]

/-- C4 (amended): when a create request fails validation (only exercise
present), Store.create is never called and the final state records exactly
the missing required fields [sets, reps, weight] with status incomplete —
but the terminal response is the empty string: the missing fields are stored
in state, never enumerated in a response (no node on the validator→END path
writes `response`). -/
theorem incomplete_create_no_store_call (env : Env) (st0 : WorkoutState)
    (p : WorkoutParserResponse) (ex : String)
    (hintent : st0.intent = some "put")
    (hpe : p.exercise = some ex) (hex : ex ≠ "")
    (hps : p.sets = none) (hpr : p.reps = none) (hpw : p.weight = none)
    (hpid : p.workout_id = none)
    (hp : env.parseResult = .ok p) (hresp : st0.response = "") :
    (runCalls env st0).countP isCreateCall = 0 ∧
    (runState env st0).validation_status = some "incomplete" ∧
    (runState env st0).missing_fields = ["sets", "reps", "weight"] ∧
    (runState env st0).response = "" := by
  rcases hP : workoutParserNode env st0 p with ⟨st1, log1⟩
  have hnspec : ¬specFallbackCond st0.intent p := by
    rintro ⟨_, hd | ⟨_, hf⟩⟩
    · rw [hintent] at hd
      simp at hd
    · rcases hf with hf | hf | hf
      · exact hf hps
      · exact hf hpr
      · exact hf hpw
  have hst1 : st1 = applyParsed st0 p := by
    have h2 := (parserNode_spec env st0 p).2
    rw [hP, if_neg hnspec] at h2
    exact h2
  subst hst1
  have hlog1 : log1 = [] := by
    have h1 := (parserNode_spec env st0 p).1
    rw [hP, if_neg hnspec] at h1
    exact h1
  have hroute : routeByIntent (applyParsed st0 p) = .validator := by
    have h1 : (applyParsed st0 p).intent = some "put" := hintent
    have h2 : strOptTruthy (applyParsed st0 p).workout_id = false := by
      show strOptTruthy p.workout_id = false
      rw [hpid]; rfl
    simp [routeByIntent, h1, h2]
  have hfm1 : fieldMissing (applyParsed st0 p) "exercise" = false := by
    show (p.exercise == none || p.exercise == some "") = false
    rw [hpe]
    simp [hex]
  have hfm2 : fieldMissing (applyParsed st0 p) "sets" = true := by
    show (p.sets == none) = true
    rw [hps]; rfl
  have hfm3 : fieldMissing (applyParsed st0 p) "reps" = true := by
    show (p.reps == none) = true
    rw [hpr]; rfl
  have hfm4 : fieldMissing (applyParsed st0 p) "weight" = true := by
    show (p.weight == none || p.weight == some "") = true
    rw [hpw]; rfl
  have hmiss : missingOf (applyParsed st0 p) = ["sets", "reps", "weight"] := by
    unfold missingOf REQUIRED_FIELDS
    simp [List.filter, hfm1, hfm2, hfm3, hfm4]
  have hstat : (workoutValidatorNode (applyParsed st0 p)).validation_status =
      some "incomplete" := by
    show (validate (applyParsed st0 p)).validation_status = some "incomplete"
    simp [validate, hmiss]
  have hnsave : shouldSaveToDatabase (workoutValidatorNode (applyParsed st0 p)) =
      false := by
    simp [shouldSaveToDatabase, hstat]
  have hrun : runGraph env st0 = .ok
      (workoutValidatorNode (applyParsed st0 p), log1, none) := by
    unfold runGraph
    rw [hp]
    simp [hP, hroute, hnsave]
  refine ⟨?_, ?_, ?_, ?_⟩
  · simp [runCalls, hrun, hlog1]
  · simp only [runState, hrun]
    exact hstat
  · simp only [runState, hrun]
    show (validate (applyParsed st0 p)).missing_fields = _
    simp [validate, hmiss]
  · simp only [runState, hrun]
    exact hresp

/-- C5 (amended): for an update-intent (put) request with no record id and no
candidate fields at all, the fallback query is not attempted and
Store.update is never called — as claimed — but the request falls through
to the create/validator branch and ends with an EMPTY response (all four
required fields recorded missing); no "identifier required" message is
produced, since the updator node is unreachable without a workout id. -/
theorem update_without_fields_no_fallback (env : Env) (st0 : WorkoutState)
    (p : WorkoutParserResponse)
    (hintent : st0.intent = some "put")
    (hpe : p.exercise = none) (hps : p.sets = none) (hpr : p.reps = none)
    (hpw : p.weight = none) (hpid : p.workout_id = none)
    (hp : env.parseResult = .ok p) (hresp : st0.response = "") :
    (runCalls env st0).countP isQueryRecent = 0 ∧
    (runCalls env st0).countP isUpdateCall = 0 ∧
    (runState env st0).response = "" ∧
    runTerminal env st0 = none ∧
    (runState env st0).missing_fields = REQUIRED_FIELDS := by
  rcases hP : workoutParserNode env st0 p with ⟨st1, log1⟩
  have hnspec : ¬specFallbackCond st0.intent p := by
    rintro ⟨_, hd | ⟨_, hf⟩⟩
    · rw [hintent] at hd
      simp at hd
    · rcases hf with hf | hf | hf
      · exact hf hps
      · exact hf hpr
      · exact hf hpw
  have hst1 : st1 = applyParsed st0 p := by
    have h2 := (parserNode_spec env st0 p).2
    rw [hP, if_neg hnspec] at h2
    exact h2
  subst hst1
  have hlog1 : log1 = [] := by
    have h1 := (parserNode_spec env st0 p).1
    rw [hP, if_neg hnspec] at h1
    exact h1
  have hroute : routeByIntent (applyParsed st0 p) = .validator := by
    have h1 : (applyParsed st0 p).intent = some "put" := hintent
    have h2 : strOptTruthy (applyParsed st0 p).workout_id = false := by
      show strOptTruthy p.workout_id = false
      rw [hpid]; rfl
    simp [routeByIntent, h1, h2]
  have hfm1 : fieldMissing (applyParsed st0 p) "exercise" = true := by
    show (p.exercise == none || p.exercise == some "") = true
    rw [hpe]; rfl
  have hfm2 : fieldMissing (applyParsed st0 p) "sets" = true := by
    show (p.sets == none) = true
    rw [hps]; rfl
  have hfm3 : fieldMissing (applyParsed st0 p) "reps" = true := by
    show (p.reps == none) = true
    rw [hpr]; rfl
  have hfm4 : fieldMissing (applyParsed st0 p) "weight" = true := by
    show (p.weight == none || p.weight == some "") = true
    rw [hpw]; rfl
  have hmiss : missingOf (applyParsed st0 p) = REQUIRED_FIELDS := by
    unfold missingOf REQUIRED_FIELDS
    simp [List.filter, hfm1, hfm2, hfm3, hfm4]
  have hstat : (workoutValidatorNode (applyParsed st0 p)).validation_status =
      some "incomplete" := by
    show (validate (applyParsed st0 p)).validation_status = some "incomplete"
    simp [validate, hmiss, REQUIRED_FIELDS]
  have hnsave : shouldSaveToDatabase (workoutValidatorNode (applyParsed st0 p)) =
      false := by
    simp [shouldSaveToDatabase, hstat]
  have hrun : runGraph env st0 = .ok
      (workoutValidatorNode (applyParsed st0 p), log1, none) := by
    unfold runGraph
    rw [hp]
    simp [hP, hroute, hnsave]
  refine ⟨?_, ?_, ?_, ?_, ?_⟩
  · simp [runCalls, hrun, hlog1]
  · simp [runCalls, hrun, hlog1]
  · simp only [runState, hrun]
    exact hresp
  · simp [runTerminal, hrun]
  · simp only [runState, hrun]
    show (validate (applyParsed st0 p)).missing_fields = _
    simp [validate, hmiss]

theorem string_append_eq_empty_iff (a b : String) :
    a ++ b = "" ↔ a = "" ∧ b = "" := by
  constructor
  · intro h
    have hd : (a ++ b).data = [] := by rw [h]
    rw [String.data_append] at hd
    rcases List.append_eq_nil.mp hd with ⟨h1, h2⟩
    cases a; cases b
    simp_all
  · rintro ⟨h1, h2⟩
    rw [h1, h2]
    rfl

theorem readerNode_response_ne (env : Env) (st : WorkoutState)
    (hread : ∀ sResp, env.readResult = .ok sResp → sResp ≠ "") :
    (workoutReaderNode env st).1.response ≠ "" := by
  cases hrr : env.readResult with
  | error e => simp [workoutReaderNode, hrr]
  | ok sResp =>
    have hne := hread sResp hrr
    cases hi : env.readExtractedId <;> simp [workoutReaderNode, hrr, hi, hne]

theorem saverNode_response_ne (env : Env) (st : WorkoutState) :
    (workoutSaverNode env st).1.response ≠ "" := by
  rcases h : crudCreate env st with ⟨res, log⟩
  rcases res with err | res
  · cases err with
    | valueError m =>
      simp [workoutSaverNode, h, string_append_eq_empty_iff]
    | otherError => simp [workoutSaverNode, h]
  · cases res with
    | none => simp [workoutSaverNode, h]
    | some rowRec =>
      simp [workoutSaverNode, h, string_append_eq_empty_iff]

theorem updatorNode_response_ne (env : Env) (st : WorkoutState) :
    (workoutUpdatorNode env st).1.response ≠ "" := by
  unfold workoutUpdatorNode
  split
  · simp
  · simp only []
    split
    · simp
    · split
      · cases hu : env.updateResult with
        | error e => simp [crudUpdate, hu]
        | ok rows =>
          simp only [crudUpdate, hu]
          cases hh : rows.head? <;>
            simp [string_append_eq_empty_iff]
      · simp

theorem deletorNode_response_ne (env : Env) (st : WorkoutState) :
    (workoutDeletorNode env st).1.response ≠ "" := by
  unfold workoutDeletorNode
  split
  · simp
  · simp only []
    split
    · cases hd : env.deleteResult <;> simp [crudDelete, hd]
    · simp

/-- C3 (amended): for every request whose extraction succeeds (and whose
reader agent, when consulted successfully, returns non-empty text), the
workflow reaches END exactly once — the run function is total and returns
one final state — and the final response is non-empty IF AND ONLY IF one of
the four response-producing terminal nodes (reader/updator/deletor/saver)
ran; on the validator→END path (incomplete or non-put validation outcome)
the response remains empty, and when extraction fails the run raises
instead of reaching END. -/
theorem run_reaches_end_response_iff_terminal (env : Env) (st0 : WorkoutState)
    (p : WorkoutParserResponse) (hp : env.parseResult = .ok p)
    (hresp : st0.response = "")
    (hread : ∀ sResp, env.readResult = .ok sResp → sResp ≠ "") :
    ∃ stF calls t, runGraph env st0 = .ok (stF, calls, t) ∧
      (stF.response ≠ "" ↔ t ≠ none) := by
  rcases hP : workoutParserNode env st0 p with ⟨st1, log1⟩
  have hst1resp : st1.response = "" := by
    have h2 := (parserNode_spec env st0 p).2
    rw [hP] at h2
    rw [show st1 = (st1, log1).1 from rfl, h2]
    split
    · cases (fallbackRows env).head? <;> exact hresp
    · exact hresp
  unfold runGraph
  rw [hp]
  simp only [hP]
  cases hroute : routeByIntent st1 with
  | reader =>
    refine ⟨_, _, _, rfl, ?_⟩
    simp [readerNode_response_ne env st1 hread]
  | updator =>
    refine ⟨_, _, _, rfl, ?_⟩
    simp [updatorNode_response_ne env st1]
  | deletor =>
    refine ⟨_, _, _, rfl, ?_⟩
    simp [deletorNode_response_ne env st1]
  | validator =>
    by_cases hs : shouldSaveToDatabase (workoutValidatorNode st1) = true
    · rw [if_pos hs]
      refine ⟨_, _, _, rfl, ?_⟩
      simp [saverNode_response_ne env (workoutValidatorNode st1)]
    · rw [if_neg hs]
      refine ⟨_, _, _, rfl, ?_⟩
      have hvresp : (workoutValidatorNode st1).response = "" := hst1resp
      simp [hvresp]

/-- C8 (amended): every failure arising inside the reader, saver, updator or
deletor node is caught at the node boundary and converted into a terminal
response — whenever extraction succeeds the run returns normally for every
Store behaviour — but Extractor failure is NOT caught: the parser node wraps
no try/except around the extractor call, so the exception propagates out of
`run` and no apology response is produced (matching §6's "failure
propagates", contradicting §7's catch-all policy). -/
theorem node_failures_caught_extractor_failure_propagates :
    (∀ env st0 p, env.parseResult = .ok p →
      ∃ out, runGraph env st0 = .ok out) ∧
    (∀ env st0, env.parseResult = .error () →
      runGraph env st0 = .error ()) := by
  constructor
  · intro env st0 p hp
    rcases hP : workoutParserNode env st0 p with ⟨st1, log1⟩
    unfold runGraph
    rw [hp]
    simp only [hP]
    cases hroute : routeByIntent st1 with
    | reader => exact ⟨_, rfl⟩
    | updator => exact ⟨_, rfl⟩
    | deletor => exact ⟨_, rfl⟩
    | validator =>
      by_cases hs : shouldSaveToDatabase (workoutValidatorNode st1) = true
      · rw [if_pos hs]; exact ⟨_, rfl⟩
      · rw [if_neg hs]; exact ⟨_, rfl⟩
  · intro env st0 hp
    unfold runGraph
    rw [hp]

/-! ## Witnesses for the hypothesis-bearing theorems -/

/-- C1 witness: Scenario A against an empty store — create called once with
the four fields plus owner, update never called, response echoes the data. -/
theorem create_request_saves_witness :
    (runCalls envEmptyStore initPut).countP isCreateCall = 1 ∧
    StoreCall.createCall "u1" (some "squats") (some 3) (some 10)
      (some "135 lbs") ∈ runCalls envEmptyStore initPut ∧
    (runCalls envEmptyStore initPut).countP isUpdateCall = 0 ∧
    (runState envEmptyStore initPut).response =
      "Workout saved! squats: 3x10 @ 135 lbs" := by
  have h := create_request_saves_when_no_prior_record envEmptyStore initPut
    parsedA "squats" "135 lbs" 3 10 rfl rfl (by decide) rfl (by decide) rfl
    (by decide) rfl (by decide) rfl rfl rfl insertedRow [] rfl
  refine ⟨h.1, h.2.1, h.2.2.1, ?_⟩
  rw [h.2.2.2]
  decide

/-- C2 witness: Scenario A attempts the fallback exactly once, as the
condition holds (put intent, mutable fields present, no record id). -/
theorem fallback_attempted_iff_witness :
    (runCalls envEmptyStore initPut).countP isQueryRecent =
      (if specFallbackCond initPut.intent parsedA then 1 else 0) :=
  fallback_attempted_iff envEmptyStore initPut parsedA rfl

/-- C3 witness: Scenario A reaches END with a response exactly when a
terminal node ran. -/
theorem run_reaches_end_witness :
    ∃ stF calls t, runGraph envEmptyStore initPut = .ok (stF, calls, t) ∧
      (stF.response ≠ "" ↔ t ≠ none) :=
  run_reaches_end_response_iff_terminal envEmptyStore initPut parsedA rfl rfl
    (fun sResp h => by cases h; decide)

/-- C4 witness: Scenario B — no Store.create call, missing fields recorded,
empty response. -/
theorem incomplete_create_witness :
    (runCalls envScenB initPut).countP isCreateCall = 0 ∧
    (runState envScenB initPut).validation_status = some "incomplete" ∧
    (runState envScenB initPut).missing_fields = ["sets", "reps", "weight"] ∧
    (runState envScenB initPut).response = "" :=
  incomplete_create_no_store_call envScenB initPut parsedB "squats" rfl rfl
    (by decide) rfl rfl rfl rfl rfl rfl

/-- C5 witness: Scenario D — no fallback, no update call, empty response,
all four required fields recorded missing. -/
theorem update_without_fields_witness :
    (runCalls envScenD initPut).countP isQueryRecent = 0 ∧
    (runCalls envScenD initPut).countP isUpdateCall = 0 ∧
    (runState envScenD initPut).response = "" ∧
    runTerminal envScenD initPut = none ∧
    (runState envScenD initPut).missing_fields = REQUIRED_FIELDS :=
  update_without_fields_no_fallback envScenD initPut parsedD rfl rfl rfl rfl
    rfl rfl rfl rfl

/-- C8 witness: a successful extraction yields a normal run result. -/
theorem node_failures_caught_witness :
    ∃ out, runGraph envEmptyStore initPut = .ok out :=
  node_failures_caught_extractor_failure_propagates.1 envEmptyStore initPut
    parsedA rfl

end Gymmando
